import Mathlib

/-!
Shallow embedding of the nutritional-evaluation engine of the
malnutrition-monitoring repository (`src/recommender.py`), together with the
record shapes it consumes (`src/models.py` `to_dict` views).  Python floats are
modelled as rationals (`ℚ`); calendar dates appear in two faithful views: the
age resolver reads only year and month of a date, while measurement-record
dates are used by the code only through `datetime` subtraction in days, so they
are modelled as epoch-day counts (`ℤ`).
-/

namespace Malnutrition

/-- A calendar date as consumed by `calculate_age_in_months`
(`recommender.py:4-13`): only the year and month fields are read by that
function; the day is kept for stating date comparisons. -/
structure Date where
  year : ℤ
  month : ℤ
  day : ℤ
deriving DecidableEq, Repr

/-- Strict lexicographic order on dates: `d1` is strictly before `d2`. -/
def Date.before (d1 d2 : Date) : Prop :=
  d1.year < d2.year ∨
    (d1.year = d2.year ∧ (d1.month < d2.month ∨ (d1.month = d2.month ∧ d1.day < d2.day)))

instance (d1 d2 : Date) : Decidable (d1.before d2) := by
  unfold Date.before; infer_instance

/-- Child sex as stored by `models.py` (`male` / `female` / default `unknown`).
`get_calorie_requirements` receives it but never reads it. -/
inductive Sex where
  | male
  | female
  | unknown
deriving DecidableEq, Repr

/-- The fields of a child record consumed by `evaluate_intake`
(`recommender.py:122,129`): date of birth and sex. -/
structure Child where
  date_of_birth : Date
  sex : Sex
deriving DecidableEq, Repr

/-- The fields of a `DailyIntake.to_dict` record consumed by `evaluate_intake`
(`recommender.py:140-141,327-328`): total calories and total protein. -/
structure IntakeRecord where
  total_calories : ℚ
  total_protein : ℚ
deriving DecidableEq, Repr

/-- The fields of an `OPDReport.to_dict` record consumed by `evaluate_intake`:
date (epoch-day count, read only via day differences at
`recommender.py:250-251`), weight, height and optional MUAC. -/
structure MeasurementRecord where
  date : ℤ
  weight_kg : ℚ
  height_cm : ℚ
  muac_cm : Option ℚ
deriving DecidableEq, Repr

/-- `calculate_age_in_months` (`recommender.py:4-13`): whole-month difference
computed from year and month only, with the reference date (`date.today()` in
the source) passed explicitly.  No validation is performed: a birth date after
the reference date yields a non-positive (possibly negative) result. -/
def calculate_age_in_months (date_of_birth today : Date) : ℤ :=
  (today.year - date_of_birth.year) * 12 + (today.month - date_of_birth.month)

/-- `get_calorie_requirements` (`recommender.py:15-32`): age-banded daily
calorie requirement; the `sex` argument is accepted and ignored, as in the
source. -/
def get_calorie_requirements (age_months : ℤ) (_sex : Sex) : ℚ :=
  if age_months < 6 then 650
  else if age_months < 12 then 850
  else if age_months < 24 then 1000
  else if age_months < 36 then 1200
  else if age_months < 60 then 1400
  else if age_months < 84 then 1600
  else if age_months < 120 then 1800
  else 2000

/-- The age-based fallback table of `get_protein_requirements`
(`recommender.py:40-56`). -/
def protein_age_fallback (age_months : ℤ) : ℚ :=
  if age_months < 6 then 10
  else if age_months < 12 then 14
  else if age_months < 24 then 16
  else if age_months < 36 then 20
  else if age_months < 60 then 24
  else if age_months < 84 then 28
  else if age_months < 120 then 32
  else 40

/-- `get_protein_requirements` (`recommender.py:34-56`): weight-based formula
`weight_kg * 1.2` when a weight is supplied and truthy (Python `if weight_kg:`
is false for `None` and for `0`), otherwise the age-based fallback table. -/
def get_protein_requirements (age_months : ℤ) (weight_kg : Option ℚ) : ℚ :=
  match weight_kg with
  | some w => if w ≠ 0 then w * 1.2 else protein_age_fallback age_months
  | none => protein_age_fallback age_months

/-- `calculate_bmi` (`recommender.py:58-63`). -/
def calculate_bmi (weight_kg height_cm : ℚ) : ℚ :=
  if height_cm > 0 then weight_kg / ((height_cm / 100) ^ 2) else 0

/-- The growth issues appended by `assess_growth_status`
(`recommender.py:65-105`). -/
inductive Issue where
  | severe_underweight
  | underweight
  | overweight
  | severe_acute_malnutrition
  | moderate_acute_malnutrition
  | severely_wasted
  | wasted
  | overweight_bmi
deriving DecidableEq, Repr

/-- The age-banded expected-weight estimate of `assess_growth_status`
(`recommender.py:71-76`). -/
def expected_weight (age_months : ℤ) : ℚ :=
  if age_months < 24 then 3.5 + (age_months : ℚ) * 0.5
  else if age_months < 60 then 12 + ((age_months : ℚ) - 24) * 0.2
  else 14 + ((age_months : ℚ) - 60) * 0.15

/-- The weight-for-age section of `assess_growth_status`
(`recommender.py:80-85`), as a function of the weight ratio. -/
def weight_for_age_assessment (weight_ratio : ℚ) : List Issue :=
  if weight_ratio < 0.7 then [.severe_underweight]
  else if weight_ratio < 0.85 then [.underweight]
  else if weight_ratio > 1.25 then [.overweight]
  else []

/-- The MUAC section of `assess_growth_status` (`recommender.py:87-92`): runs
only when `muac_cm` is truthy (Python `if muac_cm` — present and nonzero) and
the age is in the 6-59 month window. -/
def muac_assessment (age_months : ℤ) (muac_cm : Option ℚ) : List Issue :=
  match muac_cm with
  | some m =>
    if m ≠ 0 ∧ 6 ≤ age_months ∧ age_months < 60 then
      if m < 11.5 then [.severe_acute_malnutrition]
      else if m < 12.5 then [.moderate_acute_malnutrition]
      else []
    else []
  | none => []

/-- The BMI section of `assess_growth_status` (`recommender.py:94-103`). -/
def bmi_assessment (age_months : ℤ) (bmi : ℚ) : List Issue :=
  if 24 ≤ age_months then
    if bmi < 14 then [.severely_wasted]
    else if bmi < 15 then [.wasted]
    else if bmi > 18 ∧ age_months < 60 then [.overweight_bmi]
    else if bmi > 20 ∧ 60 ≤ age_months then [.overweight_bmi]
    else []
  else []

/-- `assess_growth_status` (`recommender.py:65-105`): returns the issue list
(the three sections' issues in append order, matching the source's sequence of
appends), the BMI and the weight-for-age ratio. -/
def assess_growth_status (age_months : ℤ) (weight_kg height_cm : ℚ)
    (muac_cm : Option ℚ) : List Issue × ℚ × ℚ :=
  let bmi := calculate_bmi weight_kg height_cm
  let weight_ratio := weight_kg / expected_weight age_months
  (weight_for_age_assessment weight_ratio ++ muac_assessment age_months muac_cm
    ++ bmi_assessment age_months bmi, bmi, weight_ratio)

/-- The five bands of the calorie-percentage classification chain
(`recommender.py:146-174`), one constructor per branch. -/
inductive CalorieBand where
  | urgent
  | warning
  | approaching_target
  | met
  | excess
deriving DecidableEq, Repr

/-- The calorie-percentage classification (`recommender.py:146-174`):
`< 70` urgent, `< 85` warning, `< 95` approaching target, `≤ 110` met,
otherwise excess. -/
def calorieBand (pct : ℚ) : CalorieBand :=
  if pct < 70 then .urgent
  else if pct < 85 then .warning
  else if pct < 95 then .approaching_target
  else if pct ≤ 110 then .met
  else .excess

/-- The four bands of the protein-percentage classification chain
(`recommender.py:179-197`), one constructor per branch: unlike the calorie
chain there is no separate 85-95 branch. -/
inductive ProteinBand where
  | urgent
  | warning
  | adequate
  | high
deriving DecidableEq, Repr

/-- The protein-percentage classification (`recommender.py:179-197`):
`< 70` urgent, `< 85` warning, `≤ 110` adequate, otherwise high. -/
def proteinBand (pct : ℚ) : ProteinBand :=
  if pct < 70 then .urgent
  else if pct < 85 then .warning
  else if pct ≤ 110 then .adequate
  else .high

/-- One constructor per `suggestions.append` site of `evaluate_intake`
(`recommender.py:107-330`), carrying the numeric evidence interpolated into the
message template.  Message text is identified by its template. -/
inductive Msg where
  | calorieUrgent (pct avg req : ℚ)
  | calorieWarning (pct avg req : ℚ)
  | calorieGood (pct avg req : ℚ)
  | calorieExcellent (avg : ℚ)
  | calorieHigh (pct avg req : ℚ)
  | proteinUrgent (avg req : ℚ)
  | proteinLow (avg req : ℚ)
  | proteinAdequate (avg pct req : ℚ)
  | proteinHigh (avg pct : ℚ)
  | noIntakeData (ageYears calorieReq proteinReq : ℚ)
  | weightCritical (w : ℚ)
  | weightBelow (w : ℚ)
  | weightAbove (w bmi : ℚ)
  | weightHealthy (w : ℚ)
  | muacCritical (muac : Option ℚ)
  | muacModerate (muac : Option ℚ)
  | slowGrowth (dw months expReq : ℚ)
  | goodGrowth (dw months : ℚ)
  | slowHeight (dh months : ℚ)
  | noOPD
  | tipUnder6
  | tip6to12
  | tip1to2
  | tipGeneral
  | onTrack
deriving DecidableEq, Repr

/-- Whether the message template of a constructor contains the character `✓`
(`'✓' in s`, used by the final check at `recommender.py:315`).  The
interpolated numbers are decimal-formatted and never contain `✓`, so this is a
function of the template alone. -/
def Msg.hasCheck : Msg → Bool
  | .calorieGood _ _ _ => true
  | .calorieExcellent _ => true
  | .proteinAdequate _ _ _ => true
  | .proteinHigh _ _ => true
  | .weightHealthy _ => true
  | .goodGrowth _ _ => true
  | _ => false

/-- The `average_intake` snapshot of the returned dict
(`recommender.py:326-329`). -/
structure AvgIntake where
  calories : ℚ
  protein : ℚ
deriving DecidableEq, Repr

/-- The dict returned by `evaluate_intake` (`recommender.py:321-330`), as a
structure with exactly the keys the source constructs. -/
structure Report where
  suggestions : List Msg
  age_months : ℤ
  calorie_requirement : ℚ
  protein_requirement : ℚ
  average_intake : AvgIntake
deriving DecidableEq, Repr

/-- The element at Python index `[-2]`: the last element of `dropLast`.
`secondLast l = some x` exactly when `l` has at least two elements. -/
def secondLast {α : Type} (l : List α) : Option α :=
  l.dropLast.getLast?

/-- The intake-analysis block of `evaluate_intake` (`recommender.py:139-202`):
the one or two messages appended for the supplied intake window. -/
def intake_suggestions (age_years calorie_req protein_req : ℚ)
    (recent_intakes : List IntakeRecord) : List Msg :=
  match recent_intakes with
  | [] => [Msg.noIntakeData age_years calorie_req protein_req]
  | _ :: _ =>
    let n : ℚ := (recent_intakes.length : ℚ)
    let avg_calories := (recent_intakes.map (·.total_calories)).sum / n
    let avg_protein := (recent_intakes.map (·.total_protein)).sum / n
    let calorie_percentage := avg_calories / calorie_req * 100
    let protein_percentage := avg_protein / protein_req * 100
    let calMsg :=
      match calorieBand calorie_percentage with
      | .urgent => Msg.calorieUrgent calorie_percentage avg_calories calorie_req
      | .warning => Msg.calorieWarning calorie_percentage avg_calories calorie_req
      | .approaching_target => Msg.calorieGood calorie_percentage avg_calories calorie_req
      | .met => Msg.calorieExcellent avg_calories
      | .excess => Msg.calorieHigh calorie_percentage avg_calories calorie_req
    let protMsg :=
      match proteinBand protein_percentage with
      | .urgent => Msg.proteinUrgent avg_protein protein_req
      | .warning => Msg.proteinLow avg_protein protein_req
      | .adequate => Msg.proteinAdequate avg_protein protein_percentage protein_req
      | .high => Msg.proteinHigh avg_protein protein_percentage
    [calMsg, protMsg]

/-- The expected monthly weight gain table of the growth-trend analysis
(`recommender.py:259-267`). -/
def expected_weight_gain (age_months : ℤ) : ℚ :=
  if age_months < 12 then 0.4
  else if age_months < 24 then 0.25
  else 0.2

/-- The expected monthly height gain table of the growth-trend analysis
(`recommender.py:259-267`). -/
def expected_height_gain (age_months : ℤ) : ℚ :=
  if age_months < 12 then 2.5
  else if age_months < 24 then 1.5
  else 0.7

/-- The growth-trend block of `evaluate_intake` (`recommender.py:245-285`):
messages appended when at least two measurement records exist (Python
`opd_reports[-2]`, i.e. `secondLast`) and the day difference between the last
two records is positive. -/
def growth_trend_msgs (age_months : ℤ) (latest : MeasurementRecord)
    (previous_opd : Option MeasurementRecord) : List Msg :=
  match previous_opd with
  | none => []
  | some previous =>
    let weight_change := latest.weight_kg - previous.weight_kg
    let height_change := latest.height_cm - previous.height_cm
    let date_diff : ℤ := latest.date - previous.date
    let months_diff : ℚ := (date_diff : ℚ) / 30
    if 0 < months_diff then
      let monthly_weight_gain := weight_change / months_diff
      let monthly_height_gain := height_change / months_diff
      let wMsgs :=
        if monthly_weight_gain < expected_weight_gain age_months * 0.5 then
          [Msg.slowGrowth weight_change months_diff (expected_weight_gain age_months)]
        else if expected_weight_gain age_months * 0.8 ≤ monthly_weight_gain then
          [Msg.goodGrowth weight_change months_diff]
        else []
      let hMsgs :=
        if monthly_height_gain < expected_height_gain age_months * 0.5 ∧ age_months < 60 then
          [Msg.slowHeight height_change months_diff]
        else []
      wMsgs ++ hMsgs
    else []

/-- The measurement-analysis block of `evaluate_intake`
(`recommender.py:205-290`): the weight message, the optional MUAC message and
the growth-trend messages when a latest measurement exists, else the no-OPD
info message. -/
def growth_suggestions (age_months : ℤ) (opd_reports : List MeasurementRecord) :
    List Msg :=
  match opd_reports.getLast? with
  | none => [Msg.noOPD]
  | some latest =>
    let res := assess_growth_status age_months latest.weight_kg latest.height_cm
      latest.muac_cm
    let issues := res.1
    let bmi := res.2.1
    let weightMsg :=
      if Issue.severe_underweight ∈ issues then Msg.weightCritical latest.weight_kg
      else if Issue.underweight ∈ issues then Msg.weightBelow latest.weight_kg
      else if Issue.overweight ∈ issues ∨ Issue.overweight_bmi ∈ issues then
        Msg.weightAbove latest.weight_kg bmi
      else Msg.weightHealthy latest.weight_kg
    let muacMsgs : List Msg :=
      if Issue.severe_acute_malnutrition ∈ issues then [Msg.muacCritical latest.muac_cm]
      else if Issue.moderate_acute_malnutrition ∈ issues then
        [Msg.muacModerate latest.muac_cm]
      else []
    weightMsg :: (muacMsgs ++ growth_trend_msgs age_months latest (secondLast opd_reports))

/-- The general age-appropriate feeding tip always appended at
`recommender.py:292-312`. -/
def general_tip (age_months : ℤ) : Msg :=
  if age_months < 6 then Msg.tipUnder6
  else if age_months < 12 then Msg.tip6to12
  else if age_months < 24 then Msg.tip1to2
  else Msg.tipGeneral

/-- `evaluate_intake` (`recommender.py:107-330`), with the wall-clock `today`
passed explicitly.  The measurement list is consumed positionally: `latest` is
Python `opd_reports[-1]` and `previous` is `opd_reports[-2]`; no sorting is
performed. -/
def evaluate_intake (today : Date) (child : Child)
    (recent_intakes : List IntakeRecord)
    (opd_reports : List MeasurementRecord) : Report :=
  let age_months := calculate_age_in_months child.date_of_birth today
  let age_years : ℚ := (age_months : ℚ) / 12
  let calorie_req := get_calorie_requirements age_months child.sex
  let protein_req :=
    get_protein_requirements age_months ((opd_reports.getLast?).map (·.weight_kg))
  let base :=
    intake_suggestions age_years calorie_req protein_req recent_intakes
      ++ growth_suggestions age_months opd_reports
      ++ [general_tip age_months]
  let suggestions :=
    if base.isEmpty ∨ base.all Msg.hasCheck then base ++ [Msg.onTrack] else base
  { suggestions := suggestions
    age_months := age_months
    calorie_requirement := calorie_req
    protein_requirement := protein_req
    average_intake :=
      match recent_intakes with
      | [] => { calories := 0, protein := 0 }
      | _ :: _ =>
        { calories := (recent_intakes.map (·.total_calories)).sum / (recent_intakes.length : ℚ)
          protein := (recent_intakes.map (·.total_protein)).sum / (recent_intakes.length : ℚ) }
  }

/-- A JSON-like value, for stating which keys the returned dict carries. -/
inductive RVal where
  | num (q : ℚ)
  | intVal (n : ℤ)
  | msgs (l : List Msg)
  | dict (l : List (String × RVal))

/-- The literal dict constructed at `recommender.py:321-330`, as an ordered
association list: exactly the five keys the source writes. -/
def report_to_dict (r : Report) : List (String × RVal) :=
  [("suggestions", RVal.msgs r.suggestions),
   ("age_months", RVal.intVal r.age_months),
   ("calorie_requirement", RVal.num r.calorie_requirement),
   ("protein_requirement", RVal.num r.protein_requirement),
   ("average_intake", RVal.dict
      [("calories", RVal.num r.average_intake.calories),
       ("protein", RVal.num r.average_intake.protein)])]


/-! ## Shared concrete inputs for witnesses and counterexamples -/

/-- A reference date used in concrete evaluations. -/
def today0 : Date := ⟨2026, 10, 12⟩

/-- A child aged 30 months relative to `today0`. -/
def child30 : Child := ⟨⟨2024, 4, 12⟩, Sex.unknown⟩

/-- A calendar-valid month field: real dates parsed by `datetime.fromisoformat`
always satisfy this. -/
def Date.valid (d : Date) : Prop := 1 ≤ d.month ∧ d.month ≤ 12

/-- The shared age-band index of the two requirement tables
(`recommender.py:15-56`): both if-chains test the same eight age cutoffs. -/
def requirement_band (age_months : ℤ) : ℕ :=
  if age_months < 6 then 0
  else if age_months < 12 then 1
  else if age_months < 24 then 2
  else if age_months < 36 then 3
  else if age_months < 60 then 4
  else if age_months < 84 then 5
  else if age_months < 120 then 6
  else 7

/-- The calorie values of the eight bands, indexed by `requirement_band`. -/
def calorie_table : ℕ → ℚ
  | 0 => 650
  | 1 => 850
  | 2 => 1000
  | 3 => 1200
  | 4 => 1400
  | 5 => 1600
  | 6 => 1800
  | _ => 2000

/-- The fallback protein values of the eight bands, indexed by
`requirement_band`. -/
def protein_table : ℕ → ℚ
  | 0 => 10
  | 1 => 14
  | 2 => 16
  | 3 => 20
  | 4 => 24
  | 5 => 28
  | 6 => 32
  | _ => 40

/-- A child aged 70 months relative to `today0`. -/
def child70 : Child := ⟨⟨2020, 12, 12⟩, Sex.unknown⟩

/-- An earlier healthy-weight measurement. -/
def mA : MeasurementRecord := ⟨100, 13, 92, none⟩

/-- A later low-weight measurement. -/
def mB : MeasurementRecord := ⟨130, 8, 92, none⟩

/-! ## Helper lemmas -/

/-- None of the four general feeding tips contains the `✓` character. -/
theorem general_tip_hasCheck (age_months : ℤ) :
    (general_tip age_months).hasCheck = false := by
  unfold general_tip
  split_ifs <;> rfl

/-- The final check at `recommender.py:315` never fires: the suggestion list at
that point is non-empty and always ends with the general feeding tip, which
contains no `✓`, so the returned suggestions are exactly the accumulated list. -/
theorem evaluate_suggestions_eq (today : Date) (child : Child)
    (ri : List IntakeRecord) (reps : List MeasurementRecord) :
    (evaluate_intake today child ri reps).suggestions =
      intake_suggestions ((calculate_age_in_months child.date_of_birth today : ℚ) / 12)
        (get_calorie_requirements (calculate_age_in_months child.date_of_birth today) child.sex)
        (get_protein_requirements (calculate_age_in_months child.date_of_birth today)
          ((reps.getLast?).map (·.weight_kg))) ri
      ++ growth_suggestions (calculate_age_in_months child.date_of_birth today) reps
      ++ [general_tip (calculate_age_in_months child.date_of_birth today)] := by
  simp only [evaluate_intake]
  rw [if_neg]
  simp [List.all_append, general_tip_hasCheck]

/-- C5 counterexample: the age resolver does not fail on a future birth date;
for birth date 2027-01-01 and reference date 2026-10-12 it returns the value
`-3` rather than raising any error (no `InvalidDateError` exists in the code). -/
theorem age_resolver_returns_value_on_future_dob :
    calculate_age_in_months ⟨2027, 1, 1⟩ ⟨2026, 10, 12⟩ = -3 := by
  norm_num [calculate_age_in_months]

/-- C5 amended: `calculate_age_in_months` performs no validation; for every
calendar-valid birth date strictly after the reference date it returns a
non-positive month count instead of failing. -/
theorem age_resolver_no_future_validation (dob ref : Date)
    (hdob : dob.valid) (href : ref.valid) (h : ref.before dob) :
    calculate_age_in_months dob ref ≤ 0 := by
  unfold calculate_age_in_months
  unfold Date.valid at hdob href
  unfold Date.before at h
  omega

theorem age_resolver_no_future_validation_witness :
    (⟨2027, 1, 1⟩ : Date).valid ∧ (⟨2026, 10, 12⟩ : Date).valid ∧
      (⟨2026, 10, 12⟩ : Date).before ⟨2027, 1, 1⟩ ∧
      calculate_age_in_months ⟨2027, 1, 1⟩ ⟨2026, 10, 12⟩ ≤ 0 :=
  ⟨by constructor <;> norm_num, by constructor <;> norm_num,
   by unfold Date.before; norm_num,
   age_resolver_no_future_validation ⟨2027, 1, 1⟩ ⟨2026, 10, 12⟩
     (by constructor <;> norm_num) (by constructor <;> norm_num)
     (by unfold Date.before; norm_num)⟩

theorem cal_factor (a : ℤ) (s : Sex) :
    get_calorie_requirements a s = calorie_table (requirement_band a) := by
  unfold get_calorie_requirements requirement_band
  split_ifs <;> rfl

theorem prot_factor (a : ℤ) :
    get_protein_requirements a none = protein_table (requirement_band a) := by
  unfold get_protein_requirements protein_age_fallback requirement_band
  split_ifs <;> rfl

set_option maxHeartbeats 1600000 in
theorem band_mono (a1 a2 : ℤ) (h : a1 ≤ a2) :
    requirement_band a1 ≤ requirement_band a2 := by
  unfold requirement_band
  split_ifs <;> omega

theorem calorie_table_mono : Monotone calorie_table := by
  apply monotone_nat_of_le_succ
  intro n
  match n with
  | 0 => norm_num [calorie_table]
  | 1 => norm_num [calorie_table]
  | 2 => norm_num [calorie_table]
  | 3 => norm_num [calorie_table]
  | 4 => norm_num [calorie_table]
  | 5 => norm_num [calorie_table]
  | 6 => norm_num [calorie_table]
  | n + 7 => exact le_refl _

theorem protein_table_mono : Monotone protein_table := by
  apply monotone_nat_of_le_succ
  intro n
  match n with
  | 0 => norm_num [protein_table]
  | 1 => norm_num [protein_table]
  | 2 => norm_num [protein_table]
  | 3 => norm_num [protein_table]
  | 4 => norm_num [protein_table]
  | 5 => norm_num [protein_table]
  | 6 => norm_num [protein_table]
  | n + 7 => exact le_refl _

/-- C8: for non-negative ages `a1 ≤ a2` the calorie requirement and the
age-based protein requirement are monotonically non-decreasing, and any two
ages in the same band yield equal requirements. -/
theorem requirements_monotone_and_band_constant (a1 a2 : ℤ) (s : Sex)
    (h0 : 0 ≤ a1) (h12 : a1 ≤ a2) :
    get_calorie_requirements a1 s ≤ get_calorie_requirements a2 s ∧
    get_protein_requirements a1 none ≤ get_protein_requirements a2 none ∧
    (requirement_band a1 = requirement_band a2 →
      get_calorie_requirements a1 s = get_calorie_requirements a2 s ∧
      get_protein_requirements a1 none = get_protein_requirements a2 none) := by
  have hb := band_mono a1 a2 h12
  refine ⟨?_, ?_, ?_⟩
  · rw [cal_factor, cal_factor]
    exact calorie_table_mono hb
  · rw [prot_factor, prot_factor]
    exact protein_table_mono hb
  · intro hband
    rw [cal_factor, cal_factor, prot_factor, prot_factor, hband]
    exact ⟨rfl, rfl⟩

/-- Witness for C8 at ages 7 and 30. -/
theorem requirements_monotone_and_band_constant_witness :
    (0:ℤ) ≤ 7 ∧ (7:ℤ) ≤ 30 ∧
      get_calorie_requirements 7 Sex.unknown ≤ get_calorie_requirements 30 Sex.unknown :=
  ⟨by norm_num, by norm_num,
   (requirements_monotone_and_band_constant 7 30 Sex.unknown (by norm_num) (by norm_num)).1⟩

/-- C9: the requirement tables are strictly positive (and hence nonzero) for
every age when the supplied weight, if any, is positive, so the percentage
divisions in `evaluate_intake` never divide by zero. -/
theorem requirements_never_zero (age : ℤ) (s : Sex) (w : Option ℚ)
    (hw : ∀ x, w = some x → 0 < x) :
    0 < get_calorie_requirements age s ∧ 0 < get_protein_requirements age w ∧
    get_calorie_requirements age s ≠ 0 ∧ get_protein_requirements age w ≠ 0 := by
  have hfb : 0 < protein_age_fallback age := by
    unfold protein_age_fallback
    split_ifs <;> norm_num
  have hc : 0 < get_calorie_requirements age s := by
    unfold get_calorie_requirements
    split_ifs <;> norm_num
  have hp : 0 < get_protein_requirements age w := by
    rcases w with _ | x
    · simpa [get_protein_requirements] using hfb
    · have hx := hw x rfl
      simp only [get_protein_requirements]
      split_ifs with h1
      · nlinarith
      · exact hfb
  exact ⟨hc, hp, ne_of_gt hc, ne_of_gt hp⟩

/-- Witness for C9 at age 30 with latest weight 13 kg. -/
theorem requirements_never_zero_witness :
    0 < get_calorie_requirements 30 Sex.unknown ∧
      0 < get_protein_requirements 30 (some 13) ∧
      get_calorie_requirements 30 Sex.unknown ≠ 0 ∧
      get_protein_requirements 30 (some 13) ≠ 0 :=
  requirements_never_zero 30 Sex.unknown (some 13)
    (by intro x hx; cases hx; norm_num)

/-- C2 counterexample: the protein-percentage chain has no band boundary at
95%: both 90% and 100% fall into the single `adequate` branch, while the
calorie chain distinguishes them (`approaching_target` vs `met`). -/
theorem protein_has_no_95_boundary :
    proteinBand 90 = ProteinBand.adequate ∧ proteinBand 100 = ProteinBand.adequate ∧
      calorieBand 90 = CalorieBand.approaching_target ∧
      calorieBand 100 = CalorieBand.met := by
  refine ⟨?_, ?_, ?_, ?_⟩ <;> norm_num [proteinBand, calorieBand]

/-- C2 amended: the calorie percentage is classified into five bands with
inclusive lower bounds (`<70`, `70-85`, `85-95`, `95-110`, `>110`); the protein
percentage into four (`<70`, `70-85`, `85-110`, `>110`); `69.99%` and `70.0%`
land in different bands for both. -/
theorem intake_band_characterization (pct : ℚ) :
    ((calorieBand pct = CalorieBand.urgent ↔ pct < 70) ∧
     (calorieBand pct = CalorieBand.warning ↔ 70 ≤ pct ∧ pct < 85) ∧
     (calorieBand pct = CalorieBand.approaching_target ↔ 85 ≤ pct ∧ pct < 95) ∧
     (calorieBand pct = CalorieBand.met ↔ 95 ≤ pct ∧ pct ≤ 110) ∧
     (calorieBand pct = CalorieBand.excess ↔ 110 < pct) ∧
     (proteinBand pct = ProteinBand.urgent ↔ pct < 70) ∧
     (proteinBand pct = ProteinBand.warning ↔ 70 ≤ pct ∧ pct < 85) ∧
     (proteinBand pct = ProteinBand.adequate ↔ 85 ≤ pct ∧ pct ≤ 110) ∧
     (proteinBand pct = ProteinBand.high ↔ 110 < pct)) ∧
    calorieBand (6999/100) ≠ calorieBand 70 ∧
    proteinBand (6999/100) ≠ proteinBand 70 := by
  refine ⟨?_, ?_, ?_⟩
  · unfold calorieBand proteinBand
    split_ifs <;> simp_all <;> (repeat' apply And.intro) <;> (intros; linarith)
  · norm_num [calorieBand]
    decide
  · norm_num [proteinBand]
    decide

/-! ## C1 / C10 -/

/-- C1 counterexample: the dict returned for an empty intake list and empty
measurement list (and every other input) has no `status` key and no `score`
key. -/
theorem report_lacks_status_and_score :
    "status" ∉ (report_to_dict (evaluate_intake today0 child30 [] [])).map Prod.fst ∧
      "score" ∉ (report_to_dict (evaluate_intake today0 child30 [] [])).map Prod.fst := by
  constructor <;> simp [report_to_dict]

/-- C1 amended: the returned dict's keys are exactly `suggestions`,
`age_months`, `calorie_requirement`, `protein_requirement`, `average_intake`
(no `status`, no `score`); with empty intake and measurement lists the
suggestions are non-empty and contain the no-intake-data guidance message. -/
theorem report_shape_and_no_data_message (today : Date) (child : Child) :
    (∀ (ri : List IntakeRecord) (reps : List MeasurementRecord),
        (report_to_dict (evaluate_intake today child ri reps)).map Prod.fst =
          ["suggestions", "age_months", "calorie_requirement",
           "protein_requirement", "average_intake"]) ∧
    (evaluate_intake today child [] []).suggestions ≠ [] ∧
    Msg.noIntakeData ((calculate_age_in_months child.date_of_birth today : ℚ) / 12)
        (get_calorie_requirements (calculate_age_in_months child.date_of_birth today) child.sex)
        (get_protein_requirements (calculate_age_in_months child.date_of_birth today) none)
      ∈ (evaluate_intake today child [] []).suggestions := by
  refine ⟨fun ri reps => rfl, ?_, ?_⟩
  · rw [evaluate_suggestions_eq]
    simp [intake_suggestions]
  · rw [evaluate_suggestions_eq]
    simp [intake_suggestions]

/-- C10: with an empty intake list the `average_intake` snapshot carries the
numeric zeros `{calories := 0, protein := 0}`, and the suggestions contain the
informational no-intake-data message stating the calorie and protein
targets. -/
theorem empty_intake_zero_average (today : Date) (child : Child)
    (reps : List MeasurementRecord) :
    (evaluate_intake today child [] reps).average_intake = ⟨0, 0⟩ ∧
    ("average_intake", RVal.dict [("calories", RVal.num 0), ("protein", RVal.num 0)])
        ∈ report_to_dict (evaluate_intake today child [] reps) ∧
    Msg.noIntakeData ((calculate_age_in_months child.date_of_birth today : ℚ) / 12)
        (get_calorie_requirements (calculate_age_in_months child.date_of_birth today) child.sex)
        (get_protein_requirements (calculate_age_in_months child.date_of_birth today)
          ((reps.getLast?).map (·.weight_kg)))
      ∈ (evaluate_intake today child [] reps).suggestions := by
  have havg : (evaluate_intake today child [] reps).average_intake = ⟨0, 0⟩ := rfl
  refine ⟨havg, ?_, ?_⟩
  · simp [report_to_dict, havg]
  · rw [evaluate_suggestions_eq]
    simp [intake_suggestions]

/-! ## C4 -/

theorem onTrack_not_mem_intake (ay cr pr : ℚ) (ri : List IntakeRecord) :
    Msg.onTrack ∉ intake_suggestions ay cr pr ri := by
  cases ri with
  | nil => simp [intake_suggestions]
  | cons a l =>
    simp only [intake_suggestions]
    cases calorieBand (((a :: l).map (·.total_calories)).sum / ((a :: l).length : ℚ) / cr * 100) <;>
      cases proteinBand (((a :: l).map (·.total_protein)).sum / ((a :: l).length : ℚ) / pr * 100) <;>
      simp

theorem onTrack_not_mem_trend (age : ℤ) (latest : MeasurementRecord)
    (prev : Option MeasurementRecord) :
    Msg.onTrack ∉ growth_trend_msgs age latest prev := by
  cases prev with
  | none => simp [growth_trend_msgs]
  | some p =>
    simp only [growth_trend_msgs]
    split_ifs <;> simp

theorem onTrack_not_mem_growth (age : ℤ) (reps : List MeasurementRecord) :
    Msg.onTrack ∉ growth_suggestions age reps := by
  unfold growth_suggestions
  cases reps.getLast? with
  | none => simp
  | some latest =>
    simp only [List.mem_cons, List.mem_append]
    push_neg
    refine ⟨?_, ?_, onTrack_not_mem_trend _ _ _⟩
    · split_ifs <;> simp
    · split_ifs <;> simp

theorem general_tip_ne_onTrack (age : ℤ) : general_tip age ≠ Msg.onTrack := by
  unfold general_tip
  split_ifs <;> simp

/-- C4: the affirming "on track" message (`recommender.py:316-319`) is never
emitted on any input — the general feeding tip appended at
`recommender.py:292-312` contains no `✓`, so the guard
`all('✓' in s for s in suggestions)` is always false — while the suggestions
list is indeed never empty. -/
theorem on_track_message_never_emitted (today : Date) (child : Child)
    (ri : List IntakeRecord) (reps : List MeasurementRecord) :
    (Msg.onTrack ∉ (evaluate_intake today child ri reps).suggestions ∧
      (evaluate_intake today child ri reps).suggestions ≠ []) ∧
    (evaluate_intake today0 child30 [⟨1200, 78/5⟩]
        [⟨20000, 13, 92, some 13⟩]).suggestions =
      [Msg.calorieExcellent 1200, Msg.proteinAdequate (78/5) 100 (78/5),
       Msg.weightHealthy 13, Msg.tipGeneral] := by
  refine ⟨⟨?_, ?_⟩, ?_⟩
  · rw [evaluate_suggestions_eq]
    intro hmem
    rcases List.mem_append.mp hmem with h | h
    · rcases List.mem_append.mp h with h1 | h2
      · exact onTrack_not_mem_intake _ _ _ _ h1
      · exact onTrack_not_mem_growth _ _ h2
    · simp only [List.mem_singleton] at h
      exact general_tip_ne_onTrack _ h.symm
  · rw [evaluate_suggestions_eq]
    simp
  · simp [evaluate_intake, intake_suggestions, growth_suggestions, growth_trend_msgs,
      assess_growth_status, weight_for_age_assessment, muac_assessment, bmi_assessment,
      calculate_bmi, expected_weight, calculate_age_in_months,
      get_calorie_requirements, get_protein_requirements, calorieBand, proteinBand,
      general_tip, secondLast, today0, child30, Msg.hasCheck]
    norm_num

/-! ## C3 -/

theorem muac_not_in_weight_assessment (r : ℚ) :
    Issue.severe_acute_malnutrition ∉ weight_for_age_assessment r ∧
      Issue.moderate_acute_malnutrition ∉ weight_for_age_assessment r := by
  unfold weight_for_age_assessment
  split_ifs <;> simp

theorem muac_not_in_bmi_assessment (age : ℤ) (bmi : ℚ) :
    Issue.severe_acute_malnutrition ∉ bmi_assessment age bmi ∧
      Issue.moderate_acute_malnutrition ∉ bmi_assessment age bmi := by
  unfold bmi_assessment
  split_ifs <;> simp

theorem muac_mem_assess_iff (age : ℤ) (w h : ℚ) (m : Option ℚ) :
    (Issue.severe_acute_malnutrition ∈ (assess_growth_status age w h m).1 ↔
      Issue.severe_acute_malnutrition ∈ muac_assessment age m) ∧
    (Issue.moderate_acute_malnutrition ∈ (assess_growth_status age w h m).1 ↔
      Issue.moderate_acute_malnutrition ∈ muac_assessment age m) := by
  unfold assess_growth_status
  simp only [List.mem_append]
  constructor <;> constructor
  · rintro ((h1 | h1) | h1)
    · exact absurd h1 (muac_not_in_weight_assessment _).1
    · exact h1
    · exact absurd h1 (muac_not_in_bmi_assessment _ _).1
  · intro h1
    exact Or.inl (Or.inr h1)
  · rintro ((h1 | h1) | h1)
    · exact absurd h1 (muac_not_in_weight_assessment _).2
    · exact h1
    · exact absurd h1 (muac_not_in_bmi_assessment _ _).2
  · intro h1
    exact Or.inl (Or.inr h1)

theorem muac_assessment_characterization (age : ℤ) (m : ℚ) (hm : 0 < m) :
    (Issue.severe_acute_malnutrition ∈ muac_assessment age (some m) ↔
      (6 ≤ age ∧ age < 60 ∧ m < 11.5)) ∧
    (Issue.moderate_acute_malnutrition ∈ muac_assessment age (some m) ↔
      (6 ≤ age ∧ age < 60 ∧ 11.5 ≤ m ∧ m < 12.5)) := by
  have hm0 : m ≠ 0 := ne_of_gt hm
  simp only [muac_assessment]
  split_ifs with h1 h2 h3 <;> simp_all

/-- C3: for a present (positive) MUAC value, a MUAC finding arises iff the age
is in `[6, 60)` months and the MUAC is below the 12.5 cm threshold — severe
below 11.5 cm, moderate in `[11.5, 12.5)`; in particular MUAC 11.4 cm at age 30
months produces the severe finding and its critical message, while the same
MUAC at age 70 months produces no MUAC finding and no MUAC message. -/
theorem muac_window_and_thresholds (age : ℤ) (w h m : ℚ) (hm : 0 < m) :
    ((Issue.severe_acute_malnutrition ∈ (assess_growth_status age w h (some m)).1 ∨
        Issue.moderate_acute_malnutrition ∈ (assess_growth_status age w h (some m)).1) ↔
      (6 ≤ age ∧ age < 60 ∧ m < 12.5)) ∧
    (Issue.severe_acute_malnutrition ∈ (assess_growth_status age w h (some m)).1 ↔
      (6 ≤ age ∧ age < 60 ∧ m < 11.5)) ∧
    (Issue.moderate_acute_malnutrition ∈ (assess_growth_status age w h (some m)).1 ↔
      (6 ≤ age ∧ age < 60 ∧ 11.5 ≤ m ∧ m < 12.5)) ∧
    Issue.severe_acute_malnutrition ∈ (assess_growth_status 30 12 88 (some (114/10))).1 ∧
    Msg.muacCritical (some (114/10))
      ∈ (evaluate_intake today0 child30 [] [⟨20000, 12, 88, some (114/10)⟩]).suggestions ∧
    muac_assessment 70 (some (114/10)) = [] ∧
    Msg.muacCritical (some (114/10)) ∉
      (evaluate_intake today0 child70 [] [⟨20000, 19, 110, some (114/10)⟩]).suggestions ∧
    Msg.muacModerate (some (114/10)) ∉
      (evaluate_intake today0 child70 [] [⟨20000, 19, 110, some (114/10)⟩]).suggestions := by
  have hsev := (muac_mem_assess_iff age w h (some m)).1
  have hmod := (muac_mem_assess_iff age w h (some m)).2
  have hchar := muac_assessment_characterization age m hm
  refine ⟨?_, ?_, ?_, ?_, ?_, ?_, ?_, ?_⟩
  · rw [hsev, hmod, hchar.1, hchar.2]
    constructor
    · rintro (⟨h1, h2, h3⟩ | ⟨h1, h2, h3, h4⟩) <;> exact ⟨h1, h2, by linarith⟩
    · rintro ⟨h1, h2, h3⟩
      rcases lt_or_le m 11.5 with h4 | h4
      · exact Or.inl ⟨h1, h2, h4⟩
      · exact Or.inr ⟨h1, h2, h4, h3⟩
  · rw [hsev, hchar.1]
  · rw [hmod, hchar.2]
  · rw [(muac_mem_assess_iff 30 12 88 (some (114/10))).1,
      (muac_assessment_characterization 30 (114/10) (by norm_num)).1]
    norm_num
  · rw [evaluate_suggestions_eq]
    norm_num [intake_suggestions, growth_suggestions, growth_trend_msgs, secondLast,
      assess_growth_status, weight_for_age_assessment, muac_assessment, bmi_assessment,
      calculate_bmi, expected_weight, calculate_age_in_months, today0, child30]
  · norm_num [muac_assessment]
  · rw [evaluate_suggestions_eq]
    norm_num [intake_suggestions, growth_suggestions, growth_trend_msgs, secondLast,
      assess_growth_status, weight_for_age_assessment, muac_assessment, bmi_assessment,
      calculate_bmi, expected_weight, calculate_age_in_months, general_tip,
      get_calorie_requirements, get_protein_requirements, calorieBand, proteinBand,
      today0, child70]
    simp
  · rw [evaluate_suggestions_eq]
    norm_num [intake_suggestions, growth_suggestions, growth_trend_msgs, secondLast,
      assess_growth_status, weight_for_age_assessment, muac_assessment, bmi_assessment,
      calculate_bmi, expected_weight, calculate_age_in_months, general_tip,
      get_calorie_requirements, get_protein_requirements, calorieBand, proteinBand,
      today0, child70]
    simp

/-- Witness for C3 at age 30 months with MUAC 11.4 cm. -/
theorem muac_window_and_thresholds_witness :
    (0:ℚ) < 114/10 ∧
      (Issue.severe_acute_malnutrition ∈ (assess_growth_status 30 12 88 (some (114/10))).1 ↔
        (6 ≤ (30:ℤ) ∧ (30:ℤ) < 60 ∧ (114/10 : ℚ) < 11.5)) :=
  ⟨by norm_num, (muac_window_and_thresholds 30 12 88 (114/10) (by norm_num)).2.1⟩

/-! ## C6 -/

theorem expected_weight_gain_pos (age : ℤ) : 0 < expected_weight_gain age := by
  unfold expected_weight_gain
  split_ifs <;> norm_num

theorem trend_msgs_of_slow (age : ℤ) (r1 r2 : MeasurementRecord)
    (hmd : (0:ℚ) < ((r2.date - r1.date : ℤ) : ℚ) / 30)
    (hslow : (r2.weight_kg - r1.weight_kg) / (((r2.date - r1.date : ℤ) : ℚ) / 30) <
      expected_weight_gain age * 0.5) :
    Msg.slowGrowth (r2.weight_kg - r1.weight_kg) (((r2.date - r1.date : ℤ) : ℚ) / 30)
        (expected_weight_gain age) ∈ growth_trend_msgs age r2 (some r1) := by
  simp only [growth_trend_msgs]
  rw [if_pos hmd, if_pos hslow]
  simp

theorem trend_msgs_of_good (age : ℤ) (r1 r2 : MeasurementRecord)
    (hmd : (0:ℚ) < ((r2.date - r1.date : ℤ) : ℚ) / 30)
    (hgood : expected_weight_gain age * 0.8 ≤
      (r2.weight_kg - r1.weight_kg) / (((r2.date - r1.date : ℤ) : ℚ) / 30)) :
    Msg.goodGrowth (r2.weight_kg - r1.weight_kg) (((r2.date - r1.date : ℤ) : ℚ) / 30)
        ∈ growth_trend_msgs age r2 (some r1) ∧
      ∀ a b c : ℚ, Msg.slowGrowth a b c ∉ growth_trend_msgs age r2 (some r1) := by
  have hE := expected_weight_gain_pos age
  have hns : ¬ ((r2.weight_kg - r1.weight_kg) / (((r2.date - r1.date : ℤ) : ℚ) / 30) <
      expected_weight_gain age * 0.5) := by
    push_neg
    nlinarith
  simp only [growth_trend_msgs]
  rw [if_pos hmd, if_neg hns, if_pos hgood]
  constructor
  · simp
  · intro a b c
    split_ifs <;> simp

theorem trend_mem_evaluate (today : Date) (child : Child) (ri : List IntakeRecord)
    (r1 r2 : MeasurementRecord) (x : Msg)
    (hx : x ∈ growth_trend_msgs (calculate_age_in_months child.date_of_birth today)
      r2 (some r1)) :
    x ∈ (evaluate_intake today child ri [r1, r2]).suggestions := by
  rw [evaluate_suggestions_eq]
  refine List.mem_append.mpr (Or.inl (List.mem_append.mpr (Or.inr ?_)))
  have hlast : ([r1, r2] : List MeasurementRecord).getLast? = some r2 := rfl
  have hprev : secondLast ([r1, r2] : List MeasurementRecord) = some r1 := rfl
  unfold growth_suggestions
  rw [hlast, hprev]
  simp only [List.mem_cons, List.mem_append]
  exact Or.inr (Or.inr hx)

/-- C6: with the two most-recent measurements `r1` (earlier) and `r2` (later),
a time-normalized monthly weight gain strictly below 50% of the age band's
expected gain yields the slow-growth message, a gain of at least 80% yields the
good-growth message and no slow-growth message; in particular measurements 30
days apart whose weight difference equals the expected monthly gain yield
good growth, not slow growth. -/
theorem growth_trend_bands (today : Date) (child : Child) (ri : List IntakeRecord)
    (r1 r2 : MeasurementRecord) (hd : r1.date < r2.date) :
    ((r2.weight_kg - r1.weight_kg) / (((r2.date - r1.date : ℤ) : ℚ) / 30) <
        expected_weight_gain (calculate_age_in_months child.date_of_birth today) * 0.5 →
      Msg.slowGrowth (r2.weight_kg - r1.weight_kg) (((r2.date - r1.date : ℤ) : ℚ) / 30)
          (expected_weight_gain (calculate_age_in_months child.date_of_birth today))
        ∈ (evaluate_intake today child ri [r1, r2]).suggestions) ∧
    (expected_weight_gain (calculate_age_in_months child.date_of_birth today) * 0.8 ≤
        (r2.weight_kg - r1.weight_kg) / (((r2.date - r1.date : ℤ) : ℚ) / 30) →
      Msg.goodGrowth (r2.weight_kg - r1.weight_kg) (((r2.date - r1.date : ℤ) : ℚ) / 30)
          ∈ (evaluate_intake today child ri [r1, r2]).suggestions ∧
        (∀ a b c : ℚ, Msg.slowGrowth a b c ∉
          growth_trend_msgs (calculate_age_in_months child.date_of_birth today)
            r2 (some r1))) ∧
    (r2.date - r1.date = 30 ∧
        r2.weight_kg - r1.weight_kg =
          expected_weight_gain (calculate_age_in_months child.date_of_birth today) →
      Msg.goodGrowth (r2.weight_kg - r1.weight_kg) (((r2.date - r1.date : ℤ) : ℚ) / 30)
          ∈ (evaluate_intake today child ri [r1, r2]).suggestions ∧
        (∀ a b c : ℚ, Msg.slowGrowth a b c ∉
          growth_trend_msgs (calculate_age_in_months child.date_of_birth today)
            r2 (some r1))) := by
  have hdq : (0:ℚ) < ((r2.date - r1.date : ℤ) : ℚ) := by
    have : (0:ℤ) < r2.date - r1.date := by omega
    exact_mod_cast this
  have hmd : (0:ℚ) < ((r2.date - r1.date : ℤ) : ℚ) / 30 := by positivity
  have hE := expected_weight_gain_pos (calculate_age_in_months child.date_of_birth today)
  refine ⟨?_, ?_, ?_⟩
  · intro hslow
    exact trend_mem_evaluate today child ri r1 r2 _
      (trend_msgs_of_slow _ r1 r2 hmd hslow)
  · intro hgood
    have hg := trend_msgs_of_good _ r1 r2 hmd hgood
    exact ⟨trend_mem_evaluate today child ri r1 r2 _ hg.1, hg.2⟩
  · rintro ⟨hdate, hw⟩
    have hmg : (r2.weight_kg - r1.weight_kg) / (((r2.date - r1.date : ℤ) : ℚ) / 30) =
        expected_weight_gain (calculate_age_in_months child.date_of_birth today) := by
      rw [hw, hdate]
      norm_num
    have hgood : expected_weight_gain (calculate_age_in_months child.date_of_birth today)
        * 0.8 ≤
        (r2.weight_kg - r1.weight_kg) / (((r2.date - r1.date : ℤ) : ℚ) / 30) := by
      rw [hmg]
      nlinarith
    have hg := trend_msgs_of_good _ r1 r2 hmd hgood
    exact ⟨trend_mem_evaluate today child ri r1 r2 _ hg.1, hg.2⟩

/-- Witness for C6: measurements 30 days apart, weight rising by the expected
0.2 kg monthly gain at age 30 months. -/
theorem growth_trend_bands_witness :
    (100:ℤ) < 130 ∧
      ((130:ℤ) - 100 = 30 ∧ (66/5 : ℚ) - 13 =
          expected_weight_gain (calculate_age_in_months child30.date_of_birth today0) →
        Msg.goodGrowth ((66/5 : ℚ) - 13) (((130 - 100 : ℤ) : ℚ) / 30)
            ∈ (evaluate_intake today0 child30 []
                [⟨100, 13, 90, none⟩, ⟨130, 66/5, 91, none⟩]).suggestions ∧
          (∀ a b c : ℚ, Msg.slowGrowth a b c ∉
            growth_trend_msgs (calculate_age_in_months child30.date_of_birth today0)
              (⟨130, 66/5, 91, none⟩ : MeasurementRecord)
              (some (⟨100, 13, 90, none⟩ : MeasurementRecord)))) :=
  ⟨by norm_num,
   (growth_trend_bands today0 child30 [] ⟨100, 13, 90, none⟩ ⟨130, 66/5, 91, none⟩
      (by norm_num)).2.2⟩

/-! ## C7 -/

/-- C7 counterexample: `evaluate_intake` does not sort the measurement list;
swapping the two records changes the returned Report (here even the
`protein_requirement` field, computed from the positionally-last record's
weight, differs). -/
theorem report_depends_on_measurement_order :
    evaluate_intake today0 child30 [] [mA, mB] ≠
      evaluate_intake today0 child30 [] [mB, mA] := by
  intro h
  have hp := congrArg Report.protein_requirement h
  have e1 : (evaluate_intake today0 child30 [] [mA, mB]).protein_requirement =
      get_protein_requirements (calculate_age_in_months child30.date_of_birth today0)
        (some mB.weight_kg) := rfl
  have e2 : (evaluate_intake today0 child30 [] [mB, mA]).protein_requirement =
      get_protein_requirements (calculate_age_in_months child30.date_of_birth today0)
        (some mA.weight_kg) := rfl
  rw [e1, e2] at hp
  norm_num [get_protein_requirements, calculate_age_in_months, child30, today0, mA, mB] at hp

/-- C7 amended: the Report depends on the measurement list only through its
last and second-to-last elements in the order supplied (Python
`opd_reports[-1]`, `opd_reports[-2]`); callers are responsible for passing the
list sorted by date ascending. -/
theorem evaluate_depends_only_on_last_two (today : Date) (child : Child)
    (ri : List IntakeRecord) (l1 l2 : List MeasurementRecord)
    (h1 : l1.getLast? = l2.getLast?) (h2 : secondLast l1 = secondLast l2) :
    evaluate_intake today child ri l1 = evaluate_intake today child ri l2 := by
  simp only [evaluate_intake, growth_suggestions]
  rw [h1, h2]

/-- Witness for C7's amended theorem: prepending an extra record that leaves
the last two unchanged leaves the Report unchanged. -/
theorem evaluate_depends_only_on_last_two_witness :
    ([mA, mB] : List MeasurementRecord).getLast? = [mB, mA, mB].getLast? ∧
      secondLast ([mA, mB] : List MeasurementRecord) = secondLast [mB, mA, mB] ∧
      evaluate_intake today0 child30 [] [mA, mB] =
        evaluate_intake today0 child30 [] [mB, mA, mB] :=
  ⟨rfl, rfl, evaluate_depends_only_on_last_two today0 child30 [] [mA, mB] [mB, mA, mB]
    rfl rfl⟩

end Malnutrition
